import Mathlib

/-!
Shallow embedding of the warp-task-tracker core: the session registry
(`WarpSessionManager` in the source) and the task lifecycle (`TaskTracker`).

Modelling conventions:
* Timestamps (`Date.now()`, `new Date().toISOString()`) are passed in as a
  `Nat` parameter `now`; `Date.now().toString()` becomes `toString now`.
* A JavaScript `Map` keyed by strings is an insertion-ordered association
  list `List (String × α)`; `Map.set` replaces in place or appends,
  `Map.delete` filters.
* A JavaScript `Set` of session-id strings is a `Finset String`.
* The on-disk JSON store (`tasks.json`) is a `StoreData` value; each
  operation is a pure function from the loaded store to the store contents
  after the operation (unchanged on the branches that never call `saveData`).
* The settled value of each async method is a `JsResult`: `ret` for a plain
  `return;` / fall-through (`undefined`), `retTask t` for `return task`,
  `thrown msg` for `throw new Error(msg)`.  Console output (`console.log`,
  `displayTask`, notifications) is an external effect and is not part of the
  returned value, exactly as in the source where those branches end in a
  bare `return`.
-/

namespace WarpTracker

/-- One entry of a task's `updates` array: `{timestamp, progress, message}`. -/
structure TaskUpdate where
  timestamp : Nat
  progress : Int
  message : String
deriving DecidableEq

/-- The `sessionInfo` object embedded in auto-created tasks. -/
structure SessionInfo where
  windowId : Int
  projectName : String
  workingDir : String
  title : String
deriving DecidableEq

/-- A task record as written to `tasks.json`.  Optional JSON fields
(`endTime`, `sessionId`, `sessionInfo`, `completionMessage`) are `Option`s,
absent (`none`) unless the code assigns them. -/
structure Task where
  id : String
  name : String
  description : String
  startTime : Nat
  endTime : Option Nat := none
  progress : Int
  updates : List TaskUpdate
  status : String
  sessionId : Option String := none
  sessionInfo : Option SessionInfo := none
  completionMessage : Option String := none
deriving DecidableEq

/-- Contents of the durable store `tasks.json`: `{currentTask, history}`. -/
structure StoreData where
  currentTask : Option Task
  history : List Task
deriving DecidableEq

/-- An enriched session as produced by
`WarpSessionManager.enrichSessionsWithWorkingDir`. -/
structure Session where
  title : String
  windowId : Int
  sessionId : String
  workingDir : String
  projectName : String
  taskName : String
  lastSeen : Nat
deriving DecidableEq

/-- The value an async method settles with: a bare `return` (undefined),
a returned task, or a thrown `Error(msg)`. -/
inductive JsResult where
  | ret : JsResult
  | retTask : Task → JsResult
  | thrown : String → JsResult
deriving DecidableEq

/-- `Map.get`: first (unique) entry with the given key. -/
def mapGet {α : Type} : List (String × α) → String → Option α
  | [], _ => none
  | p :: rest, k => if p.1 = k then some p.2 else mapGet rest k

/-- `Map.set`: replace the value in place when the key is present,
append a fresh entry otherwise (JavaScript `Map` insertion order). -/
def mapSet {α : Type} (m : List (String × α)) (k : String) (v : α) :
    List (String × α) :=
  if (mapGet m k).isSome then
    m.map (fun p => if p.1 = k then (k, v) else p)
  else
    m ++ [(k, v)]

/-- The key set of a map. -/
def mapKeys {α : Type} (m : List (String × α)) : Finset String :=
  (m.map Prod.fst).toFinset

/-- The set of `sessionId`s of a list of sessions. -/
def sessionIds (ss : List Session) : Finset String :=
  (ss.map Session.sessionId).toFinset

/-! ## WarpSessionManager (src/unnamed/part_003) -/

/-- The outcome of the AppleScript probe underlying `getWarpSessions`:
either an enriched session list or a failure of `osascript`/parsing. -/
inductive ProbeResult where
  | ok : List Session → ProbeResult
  | err : ProbeResult
deriving DecidableEq

/-- `WarpSessionManager.getWarpSessions`: returns the probed sessions; the
`catch` block logs the error and returns `[]`, so a probe failure yields an
empty inventory. -/
def getWarpSessions : ProbeResult → List Session
  | ProbeResult.ok ss => ss
  | ProbeResult.err => []

/-- The mutable fields of `WarpSessionManager` touched by polling:
`activeSessions` (a `Map` sessionId → session) and `lastKnownSessions`
(a `Set` of sessionId strings). -/
structure RegistryState where
  activeSessions : List (String × Session)
  lastKnownSessions : Finset String
deriving DecidableEq

/-- The object returned by `detectSessionChanges`:
`{newSessions, closedSessions, allSessions}` (closed sessions as the set of
their ids). -/
structure SessionChanges where
  newSessions : List Session
  closedSessions : Finset String
  allSessions : List Session
deriving DecidableEq

/-- `WarpSessionManager.detectSessionChanges`: probe, diff against
`lastKnownSessions`, replace the snapshot, `set` every current session in
`activeSessions` and `delete` the closed ids. -/
def detectSessionChanges (st : RegistryState) (probe : ProbeResult) :
    RegistryState × SessionChanges :=
  let currentSessions := getWarpSessions probe
  let currentSessionIds := sessionIds currentSessions
  let newSessions :=
    currentSessions.filter (fun s => decide (s.sessionId ∉ st.lastKnownSessions))
  let closedSessionIds := st.lastKnownSessions \ currentSessionIds
  let afterSet :=
    currentSessions.foldl (fun m s => mapSet m s.sessionId s) st.activeSessions
  let afterDelete := afterSet.filter (fun p => decide (p.1 ∉ closedSessionIds))
  (⟨afterDelete, currentSessionIds⟩,
   ⟨newSessions, closedSessionIds, currentSessions⟩)

/-- The `WarpSessionManager` constructor: empty map, empty snapshot. -/
def initialRegistry : RegistryState := ⟨[], ∅⟩

/-- A sequence of polls (`detectSessionChanges` calls) starting from a
fresh `WarpSessionManager`. -/
def runPolls (probes : List ProbeResult) : RegistryState :=
  probes.foldl (fun st p => (detectSessionChanges st p).1) initialRegistry

/-! ## TaskTracker (src/unnamed/part_002) -/

/-- The mutable state of a `TaskTracker` touched by the embedded
operations: the durable store `tasks.json` and the in-memory
`activeTasks` map (sessionId → task). -/
structure TrackerState where
  store : StoreData
  activeTasks : List (String × Task)
deriving DecidableEq

/-- `TaskTracker.startTask(taskName, description)`: when a current task
exists the method prints a warning, displays that task on the console and
returns (`undefined`) without saving; otherwise it builds a fresh task
(`id = Date.now().toString()`), makes it current and saves. -/
def startTask (data : StoreData) (now : Nat) (taskName : String)
    (description : String) : StoreData × JsResult :=
  match data.currentTask with
  | some _ => (data, JsResult.ret)
  | none =>
    let newTask : Task :=
      { id := toString now, name := taskName, description := description,
        startTime := now, progress := 0, updates := [],
        status := "in-progress" }
    ({ data with currentTask := some newTask }, JsResult.ret)

/-- `TaskTracker.updateProgress(percentage, message)`: prints an error and
returns (`undefined`) without saving when no current task exists or when
`percentage < 0 || percentage > 100`; otherwise overwrites `progress`,
pushes one `{timestamp, progress, message}` entry onto `updates` and
saves. -/
def updateProgress (data : StoreData) (now : Nat) (percentage : Int)
    (message : String) : StoreData × JsResult :=
  match data.currentTask with
  | none => (data, JsResult.ret)
  | some t =>
    if percentage < 0 ∨ percentage > 100 then
      (data, JsResult.ret)
    else
      let t' := { t with
        progress := percentage,
        updates := t.updates ++ [⟨now, percentage, message⟩] }
      ({ data with currentTask := some t' }, JsResult.ret)

/-- `TaskTracker.completeTask(message)`: prints an error and returns
(`undefined`) when no current task exists; otherwise sets `endTime`,
`status = 'completed'`, `progress = 100`, sets `completionMessage` only for
a truthy (non-empty) message, unshifts the task onto `history`, clears
`currentTask` and saves. -/
def completeTask (data : StoreData) (now : Nat) (message : String) :
    StoreData × JsResult :=
  match data.currentTask with
  | none => (data, JsResult.ret)
  | some t =>
    let t' := { t with
      endTime := some now, status := "completed", progress := 100,
      completionMessage :=
        if message = "" then t.completionMessage else some message }
    (⟨none, t' :: data.history⟩, JsResult.ret)

/-- `TaskTracker.createTaskForSession(session)`: returns the already bound
task when `activeTasks` has one for `session.sessionId`; otherwise builds
a fresh task (`id = sessionId_Date.now()`), registers it in the in-memory
`activeTasks` map and returns it.  No branch reads or writes the durable
store (`loadData`/`saveData` are never called). -/
def createTaskForSession (st : TrackerState) (session : Session) (now : Nat) :
    TrackerState × Task :=
  match mapGet st.activeTasks session.sessionId with
  | some t => (st, t)
  | none =>
    let newTask : Task :=
      { id := session.sessionId ++ "_" ++ toString now,
        name := session.taskName,
        description := "Auto-generated task for " ++ session.projectName ++
          "\nWorking directory: " ++ session.workingDir,
        startTime := now, progress := 0, updates := [],
        status := "in-progress",
        sessionId := some session.sessionId,
        sessionInfo := some ⟨session.windowId, session.projectName,
          session.workingDir, session.title⟩ }
    ({ st with
        activeTasks := mapSet st.activeTasks session.sessionId newTask },
     newTask)

/-- `TaskTracker.setCurrentTaskFromSession(sessionId)`: throws
`Error('No task found for session …')` when no task is bound; otherwise
overwrites `currentTask` with the bound task (no conflict check on an
existing current task), saves, and returns the task. -/
def setCurrentTaskFromSession (st : TrackerState) (sid : String) :
    TrackerState × JsResult :=
  match mapGet st.activeTasks sid with
  | none => (st, JsResult.thrown ("No task found for session " ++ sid))
  | some task =>
    ({ st with store := { st.store with currentTask := some task } },
     JsResult.retTask task)

/-! ## Map and key-set lemmas -/

/-- A key hits in `mapGet` exactly when it occurs in the key list. -/
lemma mapGet_isSome_iff {α : Type} (m : List (String × α)) (k : String) :
    (mapGet m k).isSome ↔ k ∈ m.map Prod.fst := by
  induction m with
  | nil => simp [mapGet]
  | cons p rest ih =>
    by_cases hp : p.1 = k
    · simp [mapGet, hp]
    · simp only [mapGet, if_neg hp, List.map_cons, List.mem_cons, ih]
      constructor
      · exact fun h => Or.inr h
      · rintro (h | h)
        · exact absurd h.symm hp
        · exact h

/-- Replacing the value at an existing key yields that value on lookup. -/
lemma mapGet_replace {α : Type} (m : List (String × α)) (k : String) (v : α)
    (h : (mapGet m k).isSome) :
    mapGet (m.map (fun p => if p.1 = k then (k, v) else p)) k = some v := by
  induction m with
  | nil => simp [mapGet] at h
  | cons p rest ih =>
    by_cases hp : p.1 = k
    · simp [mapGet, hp]
    · simp only [mapGet, if_neg hp, Option.isSome] at h
      simp only [List.map_cons, if_neg hp, mapGet, if_neg hp]
      exact ih h

/-- Appending a fresh key yields its value on lookup. -/
lemma mapGet_append_single {α : Type} (m : List (String × α)) (k : String)
    (v : α) (h : mapGet m k = none) :
    mapGet (m ++ [(k, v)]) k = some v := by
  induction m with
  | nil => simp [mapGet]
  | cons p rest ih =>
    by_cases hp : p.1 = k
    · simp [mapGet, hp] at h
    · simp only [mapGet, if_neg hp] at h
      simp only [List.cons_append, mapGet, if_neg hp]
      exact ih h

/-- `Map.set` followed by `Map.get` of the same key returns the set value. -/
lemma mapGet_mapSet_self {α : Type} (m : List (String × α)) (k : String)
    (v : α) : mapGet (mapSet m k v) k = some v := by
  unfold mapSet
  by_cases h : (mapGet m k).isSome
  · rw [if_pos h]
    exact mapGet_replace m k v h
  · rw [if_neg h]
    exact mapGet_append_single m k v (Option.not_isSome_iff_eq_none.mp h)

/-- The key list after `Map.set`: unchanged when the key was present,
the key appended otherwise. -/
lemma mapSet_keyList {α : Type} (m : List (String × α)) (k : String) (v : α) :
    (mapSet m k v).map Prod.fst =
      if (mapGet m k).isSome then m.map Prod.fst
      else m.map Prod.fst ++ [k] := by
  unfold mapSet
  by_cases h : (mapGet m k).isSome
  · rw [if_pos h, if_pos h, List.map_map]
    refine List.map_congr_left ?_
    intro p _
    by_cases hp : p.1 = k <;> simp [Function.comp, hp]
  · rw [if_neg h, if_neg h]
    simp

/-- `Map.set` inserts the key into the key set. -/
lemma mapKeys_mapSet {α : Type} (m : List (String × α)) (k : String) (v : α) :
    mapKeys (mapSet m k v) = insert k (mapKeys m) := by
  unfold mapKeys
  rw [mapSet_keyList]
  by_cases h : (mapGet m k).isSome
  · rw [if_pos h]
    have hk : k ∈ (m.map Prod.fst).toFinset :=
      List.mem_toFinset.mpr ((mapGet_isSome_iff m k).mp h)
    exact (Finset.insert_eq_self.mpr hk).symm
  · rw [if_neg h]
    ext x
    simp [or_comm]

/-- Setting every session of a list into the map unions its ids into the
key set. -/
lemma mapKeys_foldl_mapSet (ss : List Session)
    (m : List (String × Session)) :
    mapKeys (ss.foldl (fun acc s => mapSet acc s.sessionId s) m) =
      mapKeys m ∪ sessionIds ss := by
  induction ss generalizing m with
  | nil => simp [sessionIds, mapKeys]
  | cons s rest ih =>
    rw [List.foldl_cons, ih, mapKeys_mapSet]
    ext x
    simp only [Finset.mem_union, Finset.mem_insert, sessionIds,
      List.map_cons, List.toFinset_cons]
    tauto

/-- Filtering out a set of keys removes exactly that set from the key set. -/
lemma mapKeys_filter_sdiff {α : Type} (m : List (String × α))
    (c : Finset String) :
    mapKeys (m.filter (fun p => decide (p.1 ∉ c))) = mapKeys m \ c := by
  ext x
  simp only [mapKeys, List.mem_toFinset, List.mem_map, List.mem_filter,
    decide_eq_true_eq, Finset.mem_sdiff]
  constructor
  · rintro ⟨p, ⟨hm, hc⟩, rfl⟩
    exact ⟨⟨p, hm, rfl⟩, hc⟩
  · rintro ⟨⟨p, hm, rfl⟩, hc⟩
    exact ⟨p, ⟨hm, hc⟩, rfl⟩

/-- The ids of the sessions whose id avoids `S` are the id set minus `S`. -/
lemma sessionIds_filter_not_mem (ss : List Session) (S : Finset String) :
    sessionIds (ss.filter (fun s => decide (s.sessionId ∉ S))) =
      sessionIds ss \ S := by
  ext x
  simp only [sessionIds, List.mem_toFinset, List.mem_map, List.mem_filter,
    decide_eq_true_eq, Finset.mem_sdiff]
  constructor
  · rintro ⟨s, ⟨hm, hs⟩, rfl⟩
    exact ⟨⟨s, hm, rfl⟩, hs⟩
  · rintro ⟨⟨s, hm, rfl⟩, hs⟩
    exact ⟨s, ⟨hm, hs⟩, rfl⟩

/-- Set identity behind the snapshot update: adding the new inventory and
then deleting the closed ids leaves exactly the new inventory. -/
lemma union_sdiff_self_sdiff (A B : Finset String) :
    (A ∪ B) \ (A \ B) = B := by
  ext x
  simp only [Finset.mem_sdiff, Finset.mem_union]
  tauto

/-- One poll step: when the map's key set matches the snapshot, after the
poll both equal the id set of the probe's output. -/
lemma detect_step (st : RegistryState) (p : ProbeResult)
    (h : mapKeys st.activeSessions = st.lastKnownSessions) :
    mapKeys (detectSessionChanges st p).1.activeSessions =
      sessionIds (getWarpSessions p) ∧
    (detectSessionChanges st p).1.lastKnownSessions =
      sessionIds (getWarpSessions p) := by
  refine ⟨?_, rfl⟩
  have hact : (detectSessionChanges st p).1.activeSessions =
      ((getWarpSessions p).foldl
          (fun acc s => mapSet acc s.sessionId s) st.activeSessions).filter
        (fun q =>
          decide (q.1 ∉ st.lastKnownSessions \ sessionIds (getWarpSessions p))) :=
    rfl
  rw [hact, mapKeys_filter_sdiff, mapKeys_foldl_mapSet, h,
    union_sdiff_self_sdiff]

/-- The key set of `activeSessions` always matches `lastKnownSessions`
along any poll sequence from a fresh registry. -/
lemma runPolls_inv (probes : List ProbeResult) :
    mapKeys (runPolls probes).activeSessions =
      (runPolls probes).lastKnownSessions := by
  suffices h : ∀ (ps : List ProbeResult) (st : RegistryState),
      mapKeys st.activeSessions = st.lastKnownSessions →
      mapKeys (ps.foldl
        (fun acc p => (detectSessionChanges acc p).1) st).activeSessions =
        (ps.foldl (fun acc p => (detectSessionChanges acc p).1)
          st).lastKnownSessions by
    exact h probes initialRegistry (by simp [initialRegistry, mapKeys])
  intro ps
  induction ps with
  | nil => intro st h; exact h
  | cons p rest ih =>
    intro st h
    rw [List.foldl_cons]
    refine ih _ ?_
    rw [(detect_step st p h).1, (detect_step st p h).2]

/-! ## Concrete fixtures -/

/-- A concrete enriched session with id `warp_1`. -/
def sampleSession : Session :=
  ⟨"win", 1, "warp_1", "/root/proj", "Proj", "Proj Development", 0⟩

/-- A registry that knows exactly the session `warp_1`. -/
def regOne : RegistryState :=
  ⟨[("warp_1", sampleSession)], {"warp_1"}⟩

/-- A concrete manually-started task. -/
def taskB : Task :=
  { id := "100", name := "B", description := "", startTime := 100,
    progress := 40, updates := [], status := "in-progress" }

/-- A store whose current task is `taskB`, with empty history. -/
def storeB : StoreData := ⟨some taskB, []⟩

/-- The store with no current task and empty history. -/
def emptyStore : StoreData := ⟨none, []⟩

/-- A tracker with an empty store and no bound tasks. -/
def tracker0 : TrackerState := ⟨emptyStore, []⟩

/-- A concrete session-bound task for session `warp_1`. -/
def taskS : Task :=
  { id := "warp_1_5", name := "S", description := "", startTime := 5,
    progress := 0, updates := [], status := "in-progress",
    sessionId := some "warp_1" }

/-- A tracker whose store shows `taskB` as current while `taskS` is bound
to session `warp_1` in the in-memory map. -/
def trackerBS : TrackerState := ⟨storeB, [("warp_1", taskS)]⟩

/-! ## Claim theorems: SessionRegistry -/

/-- C1 counterexample: with session `warp_1` known, a probe failure makes
the poll report `warp_1` as disappeared (non-empty diff) and replaces the
snapshot with the empty set — the claim's "empty diff, snapshot untouched"
is false on the code. -/
theorem C1_counterexample :
    (detectSessionChanges regOne ProbeResult.err).2.closedSessions ≠ ∅ ∧
    (detectSessionChanges regOne ProbeResult.err).1.lastKnownSessions ≠
      regOne.lastKnownSessions := by
  decide

/-- C1 (amended): on probe failure `getWarpSessions` returns an empty
inventory, so the poll reports no appeared sessions but reports every
previously known session id as disappeared, and the snapshot after the
poll is empty — a probe failure is indistinguishable from all sessions
closing. -/
theorem C1_probe_failure (st : RegistryState) :
    (detectSessionChanges st ProbeResult.err).2.newSessions = [] ∧
    (detectSessionChanges st ProbeResult.err).2.closedSessions =
      st.lastKnownSessions ∧
    (detectSessionChanges st ProbeResult.err).1.lastKnownSessions = ∅ := by
  refine ⟨rfl, ?_, rfl⟩
  show st.lastKnownSessions \ sessionIds [] = st.lastKnownSessions
  simp [sessionIds]

/-- C4: for previous snapshot S₁ and probe output id set S₂, the diff has
appeared = S₂ \ S₁ and disappeared = S₁ \ S₂ as id sets, and
|appeared| + |disappeared| + |S₁ ∩ S₂| = |S₁ ∪ S₂|. -/
theorem C4_diff_completeness (st : RegistryState) (probe : ProbeResult) :
    sessionIds (detectSessionChanges st probe).2.newSessions =
      sessionIds (getWarpSessions probe) \ st.lastKnownSessions ∧
    (detectSessionChanges st probe).2.closedSessions =
      st.lastKnownSessions \ sessionIds (getWarpSessions probe) ∧
    (sessionIds (detectSessionChanges st probe).2.newSessions).card +
        (detectSessionChanges st probe).2.closedSessions.card +
        (st.lastKnownSessions ∩ sessionIds (getWarpSessions probe)).card =
      (st.lastKnownSessions ∪ sessionIds (getWarpSessions probe)).card := by
  have h1 : (detectSessionChanges st probe).2.newSessions =
      (getWarpSessions probe).filter
        (fun s => decide (s.sessionId ∉ st.lastKnownSessions)) := rfl
  have h2 : (detectSessionChanges st probe).2.closedSessions =
      st.lastKnownSessions \ sessionIds (getWarpSessions probe) := rfl
  refine ⟨?_, h2, ?_⟩
  · rw [h1]
    exact sessionIds_filter_not_mem _ _
  · rw [h1, sessionIds_filter_not_mem, h2]
    have a := Finset.card_sdiff_add_card_inter
      (sessionIds (getWarpSessions probe)) st.lastKnownSessions
    have b := Finset.card_sdiff_add_card_inter
      st.lastKnownSessions (sessionIds (getWarpSessions probe))
    have c := Finset.card_union_add_card_inter
      st.lastKnownSessions (sessionIds (getWarpSessions probe))
    rw [Finset.inter_comm] at a
    omega

/-- C10: after every completed poll of any sequence starting from a fresh
registry, the key set of the `activeSessions` map equals the
`lastKnownSessions` snapshot, which equals the id set of the most recent
probe output. -/
theorem C10_registry_map_invariant (probes : List ProbeResult)
    (p : ProbeResult) :
    mapKeys (runPolls (probes ++ [p])).activeSessions =
      (runPolls (probes ++ [p])).lastKnownSessions ∧
    (runPolls (probes ++ [p])).lastKnownSessions =
      sessionIds (getWarpSessions p) := by
  refine ⟨runPolls_inv _, ?_⟩
  have h : runPolls (probes ++ [p]) =
      (detectSessionChanges (runPolls probes) p).1 := by
    unfold runPolls
    rw [List.foldl_append]
    rfl
  rw [h]
  rfl

/-! ## Claim theorems: TaskLifecycle -/

/-- C2 counterexample: `createTaskForSession` on a fresh tracker succeeds,
returning the new task and binding it in the in-memory map, yet the
durable store afterwards contains the task nowhere (no `saveData` call):
the claim's "persists the mutation to the TaskStore before returning
successfully" is false for `createForSession`. -/
theorem C2_counterexample :
    (createTaskForSession tracker0 sampleSession 5).2.id = "warp_1_5" ∧
    (createTaskForSession tracker0 sampleSession 5).1.store.currentTask =
      none ∧
    (createTaskForSession tracker0 sampleSession 5).1.store.history = [] ∧
    mapGet (createTaskForSession tracker0 sampleSession 5).1.activeTasks
      "warp_1" = some (createTaskForSession tracker0 sampleSession 5).2 := by
  decide

/-- C2 (amended): store-writing lifecycle operations persist their
mutation before returning success — shown here for `updateProgress` —
but `createTaskForSession` never touches the durable store: it registers
the new task only in the in-memory session→task map, so loading the store
after it returns does not reflect the created task. -/
theorem C2_persistence :
    (∀ (st : TrackerState) (s : Session) (now : Nat),
      (createTaskForSession st s now).1.store = st.store) ∧
    (∀ (data : StoreData) (t : Task) (now : Nat) (p : Int) (msg : String),
      data.currentTask = some t → 0 ≤ p → p ≤ 100 →
      (updateProgress data now p msg).1.currentTask =
        some { t with
          progress := p,
          updates := t.updates ++ [⟨now, p, msg⟩] }) := by
  constructor
  · intro st s now
    rcases hm : mapGet st.activeTasks s.sessionId with _ | t
    · simp [createTaskForSession, hm]
    · simp [createTaskForSession, hm]
  · intro data t now p msg h h0 h100
    have hc : ¬(p < 0 ∨ p > 100) := by omega
    simp [updateProgress, h, hc]

/-- C2 witness: the persistence facts evaluated at concrete inputs. -/
theorem C2_persistence_witness :
    (createTaskForSession tracker0 sampleSession 5).1.store =
      tracker0.store ∧
    (updateProgress storeB 7 55 "m").1.currentTask =
      some { taskB with
        progress := 55,
        updates := taskB.updates ++ [⟨7, 55, "m"⟩] } :=
  ⟨C2_persistence.1 tracker0 sampleSession 5,
   C2_persistence.2 storeB taskB 7 55 "m" rfl (by decide) (by decide)⟩

/-- C3 counterexample: with `taskB` current, `startTask` resolves with the
same plain `undefined` return as a successful start from an empty store —
no ConflictError value (and no error at all) is surfaced to the caller,
refuting the claim's "discriminated error" part; the store is left
unchanged. -/
theorem C3_counterexample :
    (startTask storeB 9 "A" "").2 = JsResult.ret ∧
    (startTask storeB 9 "A" "").2 = (startTask emptyStore 9 "A" "").2 ∧
    (startTask storeB 9 "A" "").1 = storeB :=
  ⟨rfl, rfl, rfl⟩

/-- C3 (amended): if a current task already exists, `startTask` performs
no mutation — the store afterwards is unchanged, so the pre-existing task
is still current and no new task is created — and the call resolves
normally with `undefined` (printing a console warning that displays the
existing task) rather than surfacing a ConflictError value to the
caller. -/
theorem C3_start_conflict (data : StoreData) (b : Task) (now : Nat)
    (n d : String) (h : data.currentTask = some b) :
    startTask data now n d = (data, JsResult.ret) := by
  simp [startTask, h]

/-- C3 witness: the conflict branch evaluated with `taskB` current. -/
theorem C3_start_conflict_witness :
    storeB.currentTask = some taskB ∧
    startTask storeB 9 "A" "" = (storeB, JsResult.ret) :=
  ⟨rfl, C3_start_conflict storeB taskB 9 "A" "" rfl⟩

/-- C5 counterexample: with no current task, `completeTask` resolves
normally with `undefined` and leaves the store unchanged — no
NotFoundError is raised, refuting the claim's failure half. -/
theorem C5_counterexample :
    (completeTask emptyStore 7 "done").2 = JsResult.ret ∧
    (completeTask emptyStore 7 "done").1 = emptyStore :=
  ⟨rfl, rfl⟩

/-- C5 (amended): if a current task exists, `completeTask` retires it with
progress 100, status `completed` and `endTime` set, places it at history
index 0 and clears the current slot; if no current task exists, it prints
an error and resolves normally (`undefined`) without mutating the store —
no NotFoundError value reaches the caller. -/
theorem C5_complete (data : StoreData) (t : Task) (now : Nat)
    (msg : String) :
    (data.currentTask = some t →
      ∃ t', (completeTask data now msg).1 = ⟨none, t' :: data.history⟩ ∧
        t'.progress = 100 ∧ t'.status = "completed" ∧
        t'.endTime = some now ∧
        (completeTask data now msg).2 = JsResult.ret) ∧
    (data.currentTask = none →
      completeTask data now msg = (data, JsResult.ret)) := by
  constructor
  · intro h
    refine ⟨{ t with
      endTime := some now,
      status := "completed",
      progress := 100,
      completionMessage :=
        if msg = "" then t.completionMessage else some msg }, ?_, rfl, rfl,
      rfl, ?_⟩ <;> simp [completeTask, h]
  · intro h
    simp [completeTask, h]

/-- C5 witness: both branches of `completeTask` at concrete stores. -/
theorem C5_complete_witness :
    (storeB.currentTask = some taskB ∧
      ∃ t', (completeTask storeB 7 "x").1 = ⟨none, t' :: storeB.history⟩ ∧
        t'.progress = 100 ∧ t'.status = "completed" ∧
        t'.endTime = some 7 ∧
        (completeTask storeB 7 "x").2 = JsResult.ret) ∧
    (emptyStore.currentTask = none ∧
      completeTask emptyStore 7 "x" = (emptyStore, JsResult.ret)) :=
  ⟨⟨rfl, (C5_complete storeB taskB 7 "x").1 rfl⟩,
   ⟨rfl, (C5_complete emptyStore taskB 7 "x").2 rfl⟩⟩

/-- C6 counterexample: at percentage -1 and 101 (and with no current
task) `updateProgress` resolves with the same plain `undefined` return as
a successful update — no RangeError or NotFoundError value is surfaced to
the caller, refuting the claim's "fails with" parts. -/
theorem C6_counterexample :
    (updateProgress storeB 7 (-1) "m").2 = JsResult.ret ∧
    (updateProgress storeB 7 101 "m").2 = JsResult.ret ∧
    (updateProgress emptyStore 7 50 "m").2 = JsResult.ret ∧
    (updateProgress storeB 7 (-1) "m").2 =
      (updateProgress storeB 7 50 "m").2 := by
  refine ⟨?_, ?_, ?_, ?_⟩ <;> decide

/-- C6 (amended): `updateProgress` prints an error and resolves normally
(`undefined`) without mutating the store when no current task exists or
when the percentage is outside [0,100] (in particular for -1 and 101) —
no NotFoundError/RangeError value reaches the caller; for percentage in
[0,100] (in particular 0 and 100) it overwrites the progress (decreases
accepted) and appends exactly one `{timestamp, progress, message}` entry
to `updates`. -/
theorem C6_update_progress (data : StoreData) (t : Task) (now : Nat)
    (p : Int) (msg : String) :
    (data.currentTask = none →
      updateProgress data now p msg = (data, JsResult.ret)) ∧
    (data.currentTask = some t → (p < 0 ∨ p > 100) →
      updateProgress data now p msg = (data, JsResult.ret)) ∧
    (data.currentTask = some t → 0 ≤ p → p ≤ 100 →
      updateProgress data now p msg =
        ({ data with
          currentTask := some { t with
            progress := p,
            updates := t.updates ++ [⟨now, p, msg⟩] } }, JsResult.ret)) := by
  refine ⟨?_, ?_, ?_⟩
  · intro h
    simp [updateProgress, h]
  · intro h hp
    simp [updateProgress, h, hp]
  · intro h h0 h100
    have hc : ¬(p < 0 ∨ p > 100) := by omega
    simp [updateProgress, h, hc]

/-- C6 witness: the rejection branches at -1, 101 and no-current, and the
success branches at 0 and 100 (a decrease from 40), all at concrete
stores. -/
theorem C6_update_progress_witness :
    updateProgress emptyStore 7 50 "m" = (emptyStore, JsResult.ret) ∧
    updateProgress storeB 7 (-1) "m" = (storeB, JsResult.ret) ∧
    updateProgress storeB 7 101 "m" = (storeB, JsResult.ret) ∧
    updateProgress storeB 7 0 "m" =
      ({ storeB with
        currentTask := some { taskB with
          progress := 0,
          updates := taskB.updates ++ [⟨7, 0, "m"⟩] } }, JsResult.ret) ∧
    updateProgress storeB 7 100 "m" =
      ({ storeB with
        currentTask := some { taskB with
          progress := 100,
          updates := taskB.updates ++ [⟨7, 100, "m"⟩] } }, JsResult.ret) :=
  ⟨(C6_update_progress emptyStore taskB 7 50 "m").1 rfl,
   (C6_update_progress storeB taskB 7 (-1) "m").2.1 rfl (by decide),
   (C6_update_progress storeB taskB 7 101 "m").2.1 rfl (by decide),
   (C6_update_progress storeB taskB 7 0 "m").2.2 rfl (by decide) (by decide),
   (C6_update_progress storeB taskB 7 100 "m").2.2 rfl (by decide)
     (by decide)⟩

/-- When a task is already bound to the session id, `createTaskForSession`
returns it and changes nothing. -/
lemma createTaskForSession_hit (st : TrackerState) (s : Session) (n : Nat)
    (t : Task) (h : mapGet st.activeTasks s.sessionId = some t) :
    createTaskForSession st s n = (st, t) := by
  simp [createTaskForSession, h]

/-- C7: `createTaskForSession` is idempotent on session identity — two
consecutive calls for the same session (no intervening retire) return a
task with the same id (indeed the same task), and the second call changes
nothing: no duplicate bound task and the history is unchanged. -/
theorem C7_create_idempotent (st : TrackerState) (s : Session)
    (n₁ n₂ : Nat) :
    (createTaskForSession (createTaskForSession st s n₁).1 s n₂).2.id =
      (createTaskForSession st s n₁).2.id ∧
    (createTaskForSession (createTaskForSession st s n₁).1 s n₂).2 =
      (createTaskForSession st s n₁).2 ∧
    (createTaskForSession (createTaskForSession st s n₁).1 s n₂).1 =
      (createTaskForSession st s n₁).1 ∧
    (createTaskForSession (createTaskForSession st s n₁).1 s n₂).1.store.history =
      (createTaskForSession st s n₁).1.store.history := by
  have key : mapGet (createTaskForSession st s n₁).1.activeTasks
      s.sessionId = some (createTaskForSession st s n₁).2 := by
    rcases hm : mapGet st.activeTasks s.sessionId with _ | t
    · simp [createTaskForSession, hm, mapGet_mapSet_self]
    · rw [createTaskForSession_hit st s n₁ t hm]
      exact hm
  rw [createTaskForSession_hit _ s n₂ _ key]
  exact ⟨rfl, rfl, rfl, rfl⟩

/-- C8: `setCurrentTaskFromSession` throws a not-found error when no task
is bound to the session id; otherwise it overwrites the current-task slot
with the bound task and returns it — with no conflict check, so it also
succeeds when a different task is already current. -/
theorem C8_switch_current (st : TrackerState) (sid : String)
    (t other : Task) :
    (mapGet st.activeTasks sid = none →
      setCurrentTaskFromSession st sid =
        (st, JsResult.thrown ("No task found for session " ++ sid))) ∧
    (mapGet st.activeTasks sid = some t →
      setCurrentTaskFromSession st sid =
        ({ st with store := { st.store with currentTask := some t } },
         JsResult.retTask t)) ∧
    (mapGet st.activeTasks sid = some t →
      st.store.currentTask = some other →
      (setCurrentTaskFromSession st sid).1.store.currentTask = some t ∧
      (setCurrentTaskFromSession st sid).2 = JsResult.retTask t) := by
  refine ⟨?_, ?_, ?_⟩
  · intro h
    simp [setCurrentTaskFromSession, h]
  · intro h
    simp [setCurrentTaskFromSession, h]
  · intro h _
    constructor <;> simp [setCurrentTaskFromSession, h]

/-- C8 witness: switching to `warp_1` while a different task (`taskB`) is
current succeeds and overwrites current with the bound `taskS`; switching
on a tracker with no bound task throws the not-found error. -/
theorem C8_switch_current_witness :
    mapGet trackerBS.activeTasks "warp_1" = some taskS ∧
    trackerBS.store.currentTask = some taskB ∧
    (setCurrentTaskFromSession trackerBS "warp_1").1.store.currentTask =
      some taskS ∧
    (setCurrentTaskFromSession trackerBS "warp_1").2 =
      JsResult.retTask taskS ∧
    setCurrentTaskFromSession tracker0 "nope" =
      (tracker0, JsResult.thrown "No task found for session nope") :=
  ⟨rfl, rfl,
   ((C8_switch_current trackerBS "warp_1" taskS taskB).2.2 rfl rfl).1,
   ((C8_switch_current trackerBS "warp_1" taskS taskB).2.2 rfl rfl).2,
   (C8_switch_current tracker0 "nope" taskS taskB).1 rfl⟩

/-- C9: when `setCurrentTaskFromSession` succeeds while a different task
is current, the store afterwards has the bound task as current and an
unchanged history, and the superseded task appears nowhere in the store —
it is dropped rather than retired into history. -/
theorem C9_superseded_dropped (st : TrackerState) (sid : String)
    (b tcur : Task) (hb : mapGet st.activeTasks sid = some b)
    (_hc : st.store.currentTask = some tcur) (hne : b ≠ tcur)
    (hh : tcur ∉ st.store.history) :
    (setCurrentTaskFromSession st sid).1.store.currentTask = some b ∧
    (setCurrentTaskFromSession st sid).1.store.history =
      st.store.history ∧
    (setCurrentTaskFromSession st sid).1.store.currentTask ≠ some tcur ∧
    tcur ∉ (setCurrentTaskFromSession st sid).1.store.history := by
  have h1 : setCurrentTaskFromSession st sid =
      ({ st with store := { st.store with currentTask := some b } },
       JsResult.retTask b) := by
    simp [setCurrentTaskFromSession, hb]
  rw [h1]
  refine ⟨rfl, rfl, ?_, hh⟩
  intro hEq
  exact hne (Option.some.inj hEq)

/-- C9 witness: with `taskB` current (and absent from history) and
`taskS` bound to `warp_1`, the switch leaves `taskS` current, history
unchanged, and `taskB` nowhere in the store. -/
theorem C9_superseded_dropped_witness :
    mapGet trackerBS.activeTasks "warp_1" = some taskS ∧
    trackerBS.store.currentTask = some taskB ∧
    taskS ≠ taskB ∧
    taskB ∉ trackerBS.store.history ∧
    ((setCurrentTaskFromSession trackerBS "warp_1").1.store.currentTask =
        some taskS ∧
      (setCurrentTaskFromSession trackerBS "warp_1").1.store.history =
        trackerBS.store.history ∧
      (setCurrentTaskFromSession trackerBS "warp_1").1.store.currentTask ≠
        some taskB ∧
      taskB ∉ (setCurrentTaskFromSession trackerBS "warp_1").1.store.history) :=
  ⟨rfl, rfl, by decide, by decide,
   C9_superseded_dropped trackerBS "warp_1" taskS taskB rfl rfl (by decide)
     (by decide)⟩

end WarpTracker
